import Mathlib

/-!
Verification development for the `amp-access-fewcents` vendor adapter
(`extensions/amp-access-fewcents/0.1/fewcents-impl.js`).

The adapter's state and operations are shallowly embedded: JavaScript
values are modelled by the inductive `JsValue` (with `undefined` for
`undefined`), thrown JavaScript errors by `JsError`, DOM/listener side
effects by an explicit `World` record plus an `Effect` trace, and each
method of `FewcentsVendor` becomes a Lean function over these.  Promise
chains in the source resolve deterministically (single-threaded event
loop), so they are embedded as sequential composition; an unhandled
promise rejection is recorded in the `err` field of a step's output.
-/

namespace Fewcents

/-- Constant `TAG` from fewcents-impl.js line 25. -/
def TAG : String := "amp-access-fewcents"

/-- Constant `CONFIG_URL` from fewcents-impl.js line 27. -/
def CONFIG_URL : String := "http://localhost:9000"

/-- Constant `CONFIG_BASE_PATH` from fewcents-impl.js lines 29-33. -/
def CONFIG_BASE_PATH : String :=
  "/api/v1/amp/?article_url=CANONICAL_URL&amp_reader_id=READER_ID&return_url=RETURN_URL"

/-- Constant `AUTHORIZATION_TIMEOUT` from fewcents-impl.js line 34 (milliseconds). -/
def AUTHORIZATION_TIMEOUT : Nat := 3000

/-- Model of a JavaScript value as seen by this adapter: JSON data plus
the distinguished `undefined` value.  Numbers are modelled as `Int`;
the adapter never computes with them, it only passes them around. -/
inductive JsValue where
  | undefined : JsValue
  | null : JsValue
  | bool (b : Bool) : JsValue
  | num (n : Int) : JsValue
  | str (s : String) : JsValue
  | arr (elems : List JsValue) : JsValue
  | obj (fields : List (String × JsValue)) : JsValue

/-- Model of a thrown JavaScript error, distinguishing the error classes
this adapter can raise: `TypeError`/`RangeError` from the platform and
the user-assertion error produced by `user().assertElement`. -/
inductive JsError where
  | typeError (msg : String) : JsError
  | rangeError (msg : String) : JsError
  | userError (msg : String) : JsError

/-- Strict property access `v.k` (no optional chaining): throws a
`TypeError` when the receiver is `undefined` or `null`, looks the key up
when the receiver is an object, and yields `undefined` on every other
receiver (the adapter never reads a built-in property). -/
def JsValue.getProp : JsValue → String → Except JsError JsValue
  | .undefined, k =>
    .error (.typeError ("Cannot read properties of undefined (reading " ++ k ++ ")"))
  | .null, k =>
    .error (.typeError ("Cannot read properties of null (reading " ++ k ++ ")"))
  | .obj fields, k =>
    .ok (((fields.find? (fun p => p.1 == k)).map (fun p => p.2)).getD .undefined)
  | _, _ => .ok .undefined

/-- Optional-chaining property access `v?.k`: yields `undefined` when the
receiver is `undefined` or `null`, otherwise behaves like plain access
(which cannot throw on a non-nullish receiver). -/
def JsValue.optProp : JsValue → String → JsValue
  | .undefined, _ => .undefined
  | .null, _ => .undefined
  | .obj fields, k =>
    ((fields.find? (fun p => p.1 == k)).map (fun p => p.2)).getD .undefined
  | _, _ => .undefined

/-- Strict equality `v === n` against a number literal, as used by
`response.status === 204`. -/
def jsStrictEqNum (v : JsValue) (n : Int) : Bool :=
  match v with
  | .num m => m == n
  | _ => false

/-- ECMAScript `ToNumber`, restricted to the values the adapter can feed
to the currency formatter; `none` stands for `NaN` (in particular
`undefined` converts to `NaN`). String-to-number parsing is not needed
by any claim and is approximated as `NaN`. -/
def jsToNumberOpt : JsValue → Option Int
  | .num n => some n
  | .bool b => some (if b then 1 else 0)
  | .null => some 0
  | _ => none

/-- ECMAScript `ToString` for the primitive values that can reach the
currency option of the formatter. -/
def jsToStringLite : JsValue → String
  | .str s => s
  | .num n => toString n
  | .bool b => if b then "true" else "false"
  | .null => "null"
  | .undefined => "undefined"
  | .arr _ => ""
  | .obj _ => "[object Object]"

/-- ECMA-402 `IsWellFormedCurrencyCode`: exactly three ASCII letters. -/
def wellFormedCurrencyCode (s : String) : Bool :=
  s.length == 3 && s.data.all (fun c => c.isAlpha)

/-- Numeric part of the formatter's output: `NaN` for a `NaN` input
(e.g. formatting `undefined`), otherwise the digits.  Locale-specific
digit grouping and symbol placement are abstracted; no claim depends on
the exact digits, only on definedness versus the `NaN` placeholder. -/
def formatNumericPart (amount : JsValue) : String :=
  match jsToNumberOpt amount with
  | none => "NaN"
  | some n => toString n

/-- Model of `new Intl.NumberFormat(locale, \x7bstyle: 'currency', currency\x7d).format(amount)`
per ECMA-402 `InitializeNumberFormat`/`SetNumberFormatUnitOptions`:
when `style` is `'currency'` and `currency` is `undefined` the
constructor throws a `TypeError`; a currency value that is not a
well-formed three-letter code (after `ToString`) raises a `RangeError`;
otherwise formatting succeeds and `format(undefined)` renders the `NaN`
placeholder. -/
def intlCurrencyFormat (locale : String) (currency : JsValue) (amount : JsValue) :
    Except JsError String :=
  match currency with
  | .undefined => .error (.typeError "Currency code is required with currency style")
  | c =>
    let code := jsToStringLite c
    if wellFormedCurrencyCode code then
      .ok (code ++ " " ++ formatNumericPart amount ++ " [" ++ locale ++ "]")
    else
      .error (.rangeError ("Invalid currency code : " ++ code))

/-- UTF-8 byte sequence of a character, for `encodeURIComponent`. -/
def utf8Bytes (c : Char) : List Nat :=
  let v := c.toNat
  if v < 0x80 then [v]
  else if v < 0x800 then [0xC0 + v / 0x40, 0x80 + v % 0x40]
  else if v < 0x10000 then
    [0xE0 + v / 0x1000, 0x80 + v / 0x40 % 0x40, 0x80 + v % 0x40]
  else
    [0xF0 + v / 0x40000, 0x80 + v / 0x1000 % 0x40, 0x80 + v / 0x40 % 0x40, 0x80 + v % 0x40]

/-- Uppercase hexadecimal digit. -/
def hexDigitChar (n : Nat) : Char :=
  if n < 10 then Char.ofNat (48 + n) else Char.ofNat (55 + n)

/-- Percent-encoding of one byte, uppercase hex as `encodeURIComponent` emits. -/
def percentEncodeByte (b : Nat) : String :=
  "%" ++ String.singleton (hexDigitChar (b / 16)) ++ String.singleton (hexDigitChar (b % 16))

/-- Characters `encodeURIComponent` leaves unescaped:
alphanumerics and `- _ . ! ~ * ' ( )`. -/
def uriUnescaped (c : Char) : Bool :=
  c.isAlpha || c.isDigit ||
    c == Char.ofNat 45 || c == Char.ofNat 95 || c == Char.ofNat 46 ||
    c == Char.ofNat 33 || c == Char.ofNat 126 || c == Char.ofNat 42 ||
    c == Char.ofNat 39 || c == Char.ofNat 40 || c == Char.ofNat 41

/-- Model of JavaScript `encodeURIComponent`. -/
def encodeURIComponent (s : String) : String :=
  s.data.foldl
    (fun acc c =>
      if uriUnescaped c then acc ++ String.singleton c
      else acc ++ ((utf8Bytes c).map percentEncodeByte).foldl (fun a b => a ++ b) "")
    ""

/-- Adapter configuration (`fewcentsConfig_0_2_Def`, fewcents-impl.js
lines 41-53), restricted to the keys the embedded operations read. -/
structure FewcentsConfig where
  configUrl : Option String
  articleId : Option String
  locale : Option String

/-- JavaScript truthiness for an optional string configuration value:
absent and the empty string are falsy. -/
def truthyStr : Option String → Bool
  | none => false
  | some s => s != ""

/-- Method `getConfigUrl_` (lines 172-174): returns the constant
`CONFIG_URL`; the `configUrl` configuration key is never consulted. -/
def getConfigUrl : String := CONFIG_URL

/-- Field `purchaseConfigBaseUrl_` as computed by the constructor
(lines 147-153): base URL plus fixed path, with `&article_id=` appended
when `articleId` is truthy. -/
def purchaseConfigBaseUrl (cfg : FewcentsConfig) : String :=
  let base := getConfigUrl ++ CONFIG_BASE_PATH
  if truthyStr cfg.articleId then
    base ++ "&article_id=" ++ encodeURIComponent (cfg.articleId.getD "")
  else
    base

/-- Field `currentLocale_` as computed by the constructor (line 138):
`fewcentsConfig_['locale'] || 'en'`. -/
def currentLocale (cfg : FewcentsConfig) : String :=
  match cfg.locale with
  | none => "en"
  | some l => if l == "" then "en" else l

/-- Which of the two overlay buttons a click listener is attached to. -/
inductive ButtonKind where
  | purchase : ButtonKind
  | alreadyPurchased : ButtonKind
deriving DecidableEq

/-- Observable side effects of the adapter, in the order they are
performed: calls on the host collaborators (`buildUrl`, `getLoginUrl`,
`fetchJson`, `loginWithUrl`), event plumbing, and DOM/listener
mutations on the dialog container. -/
inductive Effect where
  | buildUrlFx (url : JsValue) (useAuthData : Bool) : Effect
  | getLoginUrlFx (url : String) : Effect
  | fetchFx (url : String) (method : String) (credentials : String) (timeoutMs : Nat) : Effect
  | preventDefaultFx : Effect
  | loginWithUrlFx (url : String) : Effect
  | attachListenerFx (id : Nat) (kind : ButtonKind) : Effect
  | disposeListenerFx (id : Nat) : Effect
  | domRemoveChildrenFx : Effect
  | domAppendFx : Effect

/-- The parts of the hosting document the adapter observes and mutates:
whether the dialog element (`id = TAG ++ "-dialog"`) exists, how many
children it has, and the registry of not-yet-disposed click listeners
(each registration carries the fresh id `listen` handed out). -/
structure World where
  dialogPresent : Bool
  dialogChildCount : Nat
  activeListeners : List (Nat × ButtonKind)
  nextListenerId : Nat

/-- Instance fields of `FewcentsVendor` that the embedded operations
read or write (constructor lines 119-135). -/
structure AdapterState where
  purchaseConfig : JsValue
  purchaseButtonListener : Option Nat
  alreadyPurchasedListener : Option Nat
  containerEmpty : Bool
  innerContainer : Option Unit
  purchaseButton : Option Unit

/-- Adapter state right after the constructor runs: `purchaseConfig_`
is `null`, both listener slots are `null`, the container is flagged
empty, and no inner container or button node is cached. -/
def initState : AdapterState :=
  { purchaseConfig := .null
    purchaseButtonListener := none
    alreadyPurchasedListener := none
    containerEmpty := true
    innerContainer := none
    purchaseButton := none }

/-- Result of one state-mutating step (`emptyContainer_` or
`renderPurchaseOverlay_`): the updated state and world, the effects
performed, and — when the step's promise rejects or the synchronous body
throws — the error, which every caller in the source leaves unhandled. -/
structure StepOut where
  s : AdapterState
  w : World
  fx : List Effect
  err : Option JsError

/-- Method `getContainer_` (lines 255-262): looks up the dialog element
by id and `user().assertElement`s it, throwing a user error when the
element does not exist. -/
def getContainer (w : World) : Except JsError Unit :=
  if w.dialogPresent then .ok ()
  else .error (.userError ("No element found with id " ++ TAG ++ "-dialog"))

/-- Method `emptyContainer_` (lines 268-286): resolves immediately when
the container is flagged empty; otherwise invokes and nulls each stored
listener disposer, then — in one `vsync.mutatePromise` batch — flags the
container empty, drops the cached inner container, and removes the
dialog's children (the container lookup inside the batch can throw). -/
def emptyContainer (s : AdapterState) (w : World) : StepOut :=
  if s.containerEmpty then
    { s := s, w := w, fx := [], err := none }
  else
    let step1 :=
      match s.purchaseButtonListener with
      | some id =>
        ({ s with purchaseButtonListener := none },
          { w with activeListeners := w.activeListeners.filter (fun p => p.1 != id) },
          [Effect.disposeListenerFx id])
      | none => (s, w, [])
    let s1 := step1.1
    let w1 := step1.2.1
    let fx1 := step1.2.2
    let step2 :=
      match s1.alreadyPurchasedListener with
      | some id =>
        ({ s1 with alreadyPurchasedListener := none },
          { w1 with activeListeners := w1.activeListeners.filter (fun p => p.1 != id) },
          [Effect.disposeListenerFx id])
      | none => (s1, w1, [])
    let s2 := step2.1
    let w2 := step2.2.1
    let fx2 := step2.2.2
    let s3 := { s2 with containerEmpty := true, innerContainer := none }
    match getContainer w2 with
    | .error e => { s := s3, w := w2, fx := fx1 ++ fx2, err := some e }
    | .ok _ =>
      { s := s3
        w := { w2 with dialogChildCount := 0 }
        fx := fx1 ++ fx2 ++ [Effect.domRemoveChildrenFx]
        err := none }

/-- The price line of the overlay (line 325): the template literal
applies `Intl.NumberFormat` with the hard-coded locale `'en-EN'` and the
currency read through the optional chain
`purchaseConfig_?.purchase_options?.price?.currency` to the amount read
through `purchaseConfig_?.purchase_options?.price?.amount`, then
appends `"/article"`. -/
def priceLineText (purchaseConfig : JsValue) : Except JsError String :=
  let priceV := (purchaseConfig.optProp "purchase_options").optProp "price"
  match intlCurrencyFormat "en-EN" (priceV.optProp "currency") (priceV.optProp "amount") with
  | .error e => .error e
  | .ok t => .ok (t ++ "/article")

/-- Method `renderPurchaseOverlay_` (lines 291-356): asserts the dialog
container, caches a fresh inner container node, builds the static
layout, computes the price line (which can throw), attaches the
purchase-button click listener, reads `purchaseConfig_['identify_url']`
with a strict (throwing) access and attaches the already-purchased
listener, appends the inner container to the dialog, and finally flags
the container non-empty.  An error at any point aborts the remaining
steps, keeping the mutations already made. -/
def renderPurchaseOverlay (s : AdapterState) (w : World) : StepOut :=
  match getContainer w with
  | .error e => { s := s, w := w, fx := [], err := some e }
  | .ok _ =>
    let s := { s with innerContainer := some () }
    match priceLineText s.purchaseConfig with
    | .error e => { s := s, w := w, fx := [], err := some e }
    | .ok _priceText =>
      let pid := w.nextListenerId
      let s := { s with purchaseButton := some (), purchaseButtonListener := some pid }
      let w := { w with
        activeListeners := w.activeListeners ++ [(pid, ButtonKind.purchase)]
        nextListenerId := pid + 1 }
      let fx := [Effect.attachListenerFx pid ButtonKind.purchase]
      match s.purchaseConfig.getProp "identify_url" with
      | .error e => { s := s, w := w, fx := fx, err := some e }
      | .ok _href =>
        let aid := w.nextListenerId
        let s := { s with alreadyPurchasedListener := some aid }
        let w := { w with
          activeListeners := w.activeListeners ++ [(aid, ButtonKind.alreadyPurchased)]
          nextListenerId := aid + 1 }
        let fx := fx ++ [Effect.attachListenerFx aid ButtonKind.alreadyPurchased]
        let w := { w with dialogChildCount := w.dialogChildCount + 1 }
        let s := { s with containerEmpty := false }
        { s := s, w := w, fx := fx ++ [Effect.domAppendFx], err := none }

/-- The `response` attached to a rejected fetch: its HTTP status and the
outcome of calling its `json()` method — `some v` when the body parses
to `v`, `none` when parsing fails (the source catches that failure and
substitutes `undefined`). -/
structure ErrResponse where
  status : Int
  jsonBody : Option JsValue

/-- A rejection reason coming out of `getPurchaseConfig_`'s promise
chain: it may carry a `response` (non-ok HTTP status) or not (network
failure, or the timeout error produced by `timer.timeoutPromise` — the
latter is marked by `isTimeout`).  A rejection whose reason is itself
falsy behaves exactly like one without a `response` (both arms of
`if (!err || !err.response)` rethrow the reason unchanged), so it is
not distinguished here. -/
structure JsRejection where
  response : Option ErrResponse
  isTimeout : Bool

/-- Outcome of the fetch pipeline in `getPurchaseConfig_`
(lines 225-239): either the promise chain resolved with the parsed JSON
body (`res.json()` after a 2xx/ok HTTP response), or it rejected. -/
inductive FetchOutcome where
  | resolved (body : JsValue) : FetchOutcome
  | rejected (err : JsRejection) : FetchOutcome

/-- Settled result of the promise returned by `authorize()`:
resolution with `\x7baccess: v\x7d`, the 204 user error, a rethrown
rejection reason, or an error thrown inside the fulfillment handler. -/
inductive AuthResult where
  | ok (access : JsValue) : AuthResult
  | noMatch (msg : String) : AuthResult
  | reraised (err : JsRejection) : AuthResult
  | thrown (e : JsError) : AuthResult

/-- Output of one `authorize()` call: its settled result, the adapter
state and world afterwards, and the effect trace. -/
structure AuthOut where
  result : AuthResult
  s : AdapterState
  w : World
  fx : List Effect

/-- Message of the error thrown on a 204 status (lines 183-186). -/
def noMatchMsg : String :=
  "No merchant domains have been matched for this article, or no paid content configurations are setup."

/-- Effects of `getPurchaseConfig_` (lines 219-240): `buildUrl` on the
purchase-config base URL without auth data, `getLoginUrl` on its result,
then the timeout-bounded JSON fetch with credentials included.
Modelled from the spec: `Timer.timeoutPromise` and `Xhr.fetchJson` live
in the host framework outside this extension's sources; per the spec the
fetch is a JSON GET with credentials included bounded by the 3000 ms
timeout, whose expiry rejects the chain with a `Timeout` error carrying
no `response`.  The collaborators `buildUrl` and `getLoginUrl` are
abstracted as the function parameters `bu` and `glu`. -/
def getPurchaseConfigFx (bu glu : String → String) (baseUrl : String) : List Effect :=
  let u1 := bu baseUrl
  let u2 := glu u1
  [Effect.buildUrlFx (.str baseUrl) false,
   Effect.getLoginUrlFx u1,
   Effect.fetchFx u2 "GET" "include" AUTHORIZATION_TIMEOUT]

/-- Method `authorize` (lines 179-213) applied to the outcome of its
single fetch.  Fulfillment handler: read `status` off the resolved body
(a throw there rejects `authorize()`), throw the no-match user error on
`=== 204`, otherwise call `emptyContainer_` (its promise is dropped,
so its rejection is unhandled) and resolve with the body's `access`
field.  Rejection handler: rethrow unchanged unless the reason carries a
response with status 402; for 402, store the parsed body (`undefined`
when parsing failed) as the purchase config, then run
`emptyContainer_().then(renderPurchaseOverlay_)` — whose rejection is
likewise unhandled, and a rejection of the empty step skips the render —
and resolve with `\x7baccess: false\x7d`. -/
def authorize (bu glu : String → String) (cfg : FewcentsConfig) (outcome : FetchOutcome)
    (s : AdapterState) (w : World) : AuthOut :=
  let fx0 := getPurchaseConfigFx bu glu (purchaseConfigBaseUrl cfg)
  match outcome with
  | .resolved body =>
    match body.getProp "status" with
    | .error e => { result := .thrown e, s := s, w := w, fx := fx0 }
    | .ok stv =>
      if jsStrictEqNum stv 204 then
        { result := .noMatch noMatchMsg, s := s, w := w, fx := fx0 }
      else
        let step := emptyContainer s w
        match body.getProp "access" with
        | .error e => { result := .thrown e, s := step.s, w := step.w, fx := fx0 ++ step.fx }
        | .ok av => { result := .ok av, s := step.s, w := step.w, fx := fx0 ++ step.fx }
  | .rejected err =>
    match err.response with
    | none => { result := .reraised err, s := s, w := w, fx := fx0 }
    | some resp =>
      if resp.status != 402 then
        { result := .reraised err, s := s, w := w, fx := fx0 }
      else
        let body := resp.jsonBody.getD .undefined
        let s1 := { s with purchaseConfig := body }
        let step := emptyContainer s1 w
        match step.err with
        | some _ =>
          { result := .ok (.bool false), s := step.s, w := step.w, fx := fx0 ++ step.fx }
        | none =>
          let rstep := renderPurchaseOverlay step.s step.w
          { result := .ok (.bool false)
            s := rstep.s
            w := rstep.w
            fx := fx0 ++ step.fx ++ rstep.fx }

/-- Method `handlePurchase_` (lines 397-407) with the collaborator
`accessSource_.buildUrl` abstracted as `bu`: suppress the event's
default action, decorate the given URL without auth data (and without
any `getLoginUrl` resolution), and on resolution hand the decorated URL
to `accessSource_.loginWithUrl` exactly once.  The
`'alreadyPurchased'` third argument passed by the already-purchased
click wiring (line 386) is absorbed by nothing: the method's parameter
list has no slot for it, so it is ignored. -/
def handlePurchase (bu : JsValue → String) (purchaseUrl : JsValue) : List Effect :=
  [Effect.preventDefaultFx,
   Effect.buildUrlFx purchaseUrl false,
   Effect.loginWithUrlFx (bu purchaseUrl)]

/-- Firing the purchase button's click listener (lines 338-343): the
argument `this.purchaseConfig_.purchase_options.purchase_url` is
evaluated with strict (throwing) property accesses before
`handlePurchase_` runs — so a throw there precedes even
`preventDefault`. -/
def clickPurchaseButton (bu : JsValue → String) (s : AdapterState) :
    Except JsError (List Effect) :=
  match s.purchaseConfig.getProp "purchase_options" with
  | .error e => .error e
  | .ok popts =>
    match popts.getProp "purchase_url" with
    | .error e => .error e
    | .ok url => .ok (handlePurchase bu url)

/-- Firing the already-purchased link's click listener (lines 385-387):
the handler closes over the `href` captured at render time (the value of
`purchaseConfig_['identify_url']`) and calls `handlePurchase_` with it
plus the ignored `'alreadyPurchased'` mode marker. -/
def clickAlreadyPurchased (bu : JsValue → String) (href : JsValue) : List Effect :=
  handlePurchase bu href

/-- A document whose dialog element exists and is empty, with no
listeners registered yet. -/
def initWorld : World :=
  { dialogPresent := true
    dialogChildCount := 0
    activeListeners := []
    nextListenerId := 0 }

/-- A document from which the dialog element is absent. -/
def noDialogWorld : World :=
  { dialogPresent := false
    dialogChildCount := 0
    activeListeners := []
    nextListenerId := 0 }

/-- Adapter configuration with every optional key absent. -/
def defaultCfg : FewcentsConfig :=
  { configUrl := none, articleId := none, locale := none }

/-- A 402 body that is well formed for the source's own typedefs
(`PurchaseConfig_0_2_Def`, lines 84-90): an `identify_url` and a
`purchase_options` ARRAY whose single element is a full
`PurchaseOption_0_2_Def` with a 1 USD price. -/
def conformantBody : JsValue :=
  .obj
    [("identify_url", .str "https://id.example/verify"),
     ("purchase_options",
      .arr
        [.obj
          [("title", .str "Unlock"),
           ("description", .str "Single article"),
           ("sales_model", .str "single_purchase"),
           ("purchase_url", .str "https://pay.example/1"),
           ("price", .obj [("amount", .num 1), ("currency", .str "USD")]),
           ("expiry", .obj [("unit", .str "day"), ("value", .num 1)])]])]

/-- A 402 body shaped the way line 325 actually reads it: the
`purchase_options` field is a single object carrying `price`,
`purchase_url` and sitting beside `identify_url`, so that the overlay
render completes. -/
def renderableBody : JsValue :=
  .obj
    [("identify_url", .str "https://id.example/verify"),
     ("purchase_options",
      .obj
        [("purchase_url", .str "https://pay.example/1"),
         ("price", .obj [("amount", .num 1), ("currency", .str "USD")])])]

/-- The fetch outcome of a 402 denial whose body parses to `body`. -/
def denyOutcome (body : JsValue) : FetchOutcome :=
  .rejected { response := some { status := 402, jsonBody := some body }, isTimeout := false }

/-- The fetch outcome of the 3000 ms timeout: `timer.timeoutPromise`
rejects with a timeout error that carries no `response`. -/
def timeoutOutcome : FetchOutcome :=
  .rejected { response := none, isTimeout := true }

/-- Iterated authorization: run `authorize` `n` times in a row against
the same fetch outcome, threading state and world. -/
def authIter (bu glu : String → String) (cfg : FewcentsConfig) (outcome : FetchOutcome) :
    Nat → AdapterState × World → AdapterState × World
  | 0, sw => sw
  | n + 1, sw =>
    let out := authorize bu glu cfg outcome sw.1 sw.2
    authIter bu glu cfg outcome n (out.s, out.w)

/-- Number of active (registered, not yet disposed) listeners of a given
kind. -/
def countKind (ls : List (Nat × ButtonKind)) (k : ButtonKind) : Nat :=
  (ls.filter (fun p => p.2 == k)).length

/-- The listener registrations that the adapter's two listener fields
claim to hold. -/
def fieldListeners (s : AdapterState) : List (Nat × ButtonKind) :=
  (match s.purchaseButtonListener with
   | some i => [(i, ButtonKind.purchase)]
   | none => []) ++
  (match s.alreadyPurchasedListener with
   | some j => [(j, ButtonKind.alreadyPurchased)]
   | none => [])

/-- Consistency invariant tying the world's listener registry to the
adapter's fields: the registry holds exactly the listeners the fields
name, and a flagged-empty container holds no listeners at all.  It holds
of the freshly constructed adapter and is preserved by the authorize
flow. -/
def ListenerInv (s : AdapterState) (w : World) : Prop :=
  w.activeListeners = fieldListeners s ∧
  (s.containerEmpty = true → fieldListeners s = [])

/-- Recognizer for the network-fetch effect. -/
def isFetchFx : Effect → Bool
  | .fetchFx _ _ _ _ => true
  | _ => false

/-- Recognizer for the effects that mutate the document: child removal,
child insertion, and listener attachment or disposal. -/
def isDomFx : Effect → Bool
  | .domRemoveChildrenFx => true
  | .domAppendFx => true
  | .attachListenerFx _ _ => true
  | .disposeListenerFx _ => true
  | _ => false

theorem emptyContainer_noop (s : AdapterState) (w : World) (h : s.containerEmpty = true) :
    emptyContainer s w = { s := s, w := w, fx := [], err := none } := by
  simp [emptyContainer, h]

theorem emptyContainer_flag (s : AdapterState) (w : World) :
    (emptyContainer s w).s.containerEmpty = true := by
  by_cases h : s.containerEmpty
  · simp [emptyContainer, h]
  · simp only [Bool.not_eq_true] at h
    cases hp : s.purchaseButtonListener <;> cases ha : s.alreadyPurchasedListener <;>
      cases hd : w.dialogPresent <;>
        simp [emptyContainer, h, hp, ha, hd, getContainer]

theorem fieldListeners_eq_nil (s : AdapterState) (h : fieldListeners s = []) :
    s.purchaseButtonListener = none ∧ s.alreadyPurchasedListener = none := by
  cases hp : s.purchaseButtonListener <;> cases ha : s.alreadyPurchasedListener <;>
    simp [fieldListeners, hp, ha] at h ⊢

theorem emptyContainer_inv (s : AdapterState) (w : World)
    (hinv : ListenerInv s w) (hd : w.dialogPresent = true) :
    (emptyContainer s w).s.purchaseButtonListener = none ∧
    (emptyContainer s w).s.alreadyPurchasedListener = none ∧
    (emptyContainer s w).s.containerEmpty = true ∧
    (emptyContainer s w).s.purchaseConfig = s.purchaseConfig ∧
    (emptyContainer s w).w.activeListeners = [] ∧
    (emptyContainer s w).w.nextListenerId = w.nextListenerId ∧
    (emptyContainer s w).w.dialogPresent = true ∧
    (emptyContainer s w).err = none := by
  obtain ⟨hreg, hempty⟩ := hinv
  by_cases hce : s.containerEmpty
  · obtain ⟨hp, ha⟩ := fieldListeners_eq_nil s (hempty hce)
    simp [emptyContainer_noop s w hce, hp, ha, hreg, hempty hce, hce, hd]
  · simp only [Bool.not_eq_true] at hce
    cases hp : s.purchaseButtonListener with
    | none =>
      cases ha : s.alreadyPurchasedListener with
      | none => simp [emptyContainer, hce, hp, ha, hreg, fieldListeners, hd, getContainer]
      | some j => simp [emptyContainer, hce, hp, ha, hreg, fieldListeners, hd, getContainer]
    | some i =>
      cases ha : s.alreadyPurchasedListener with
      | none => simp [emptyContainer, hce, hp, ha, hreg, fieldListeners, hd, getContainer]
      | some j =>
        by_cases hji : j = i
        · simp [emptyContainer, hce, hp, ha, hreg, fieldListeners, hd, getContainer, hji]
        · simp [emptyContainer, hce, hp, ha, hreg, fieldListeners, hd, getContainer, hji]

theorem render_good (s : AdapterState) (w : World) (t : String) (hv : JsValue)
    (hd : w.dialogPresent = true)
    (hprice : priceLineText s.purchaseConfig = .ok t)
    (hident : s.purchaseConfig.getProp "identify_url" = .ok hv) :
    renderPurchaseOverlay s w =
      { s := { s with
               innerContainer := some (), purchaseButton := some (),
               purchaseButtonListener := some w.nextListenerId,
               alreadyPurchasedListener := some (w.nextListenerId + 1),
               containerEmpty := false }
        w := { w with
               activeListeners := w.activeListeners ++
                 [(w.nextListenerId, ButtonKind.purchase),
                  (w.nextListenerId + 1, ButtonKind.alreadyPurchased)],
               nextListenerId := w.nextListenerId + 2,
               dialogChildCount := w.dialogChildCount + 1 }
        fx := [Effect.attachListenerFx w.nextListenerId ButtonKind.purchase,
               Effect.attachListenerFx (w.nextListenerId + 1) ButtonKind.alreadyPurchased,
               Effect.domAppendFx]
        err := none } := by
  simp [renderPurchaseOverlay, getContainer, hd, hprice, hident]

theorem auth402_step (bu glu : String → String) (cfg : FewcentsConfig) (body : JsValue)
    (s : AdapterState) (w : World) (t : String) (hv : JsValue)
    (hinv : ListenerInv s w) (hd : w.dialogPresent = true)
    (hprice : priceLineText body = .ok t)
    (hident : body.getProp "identify_url" = .ok hv) :
    ListenerInv (authorize bu glu cfg (denyOutcome body) s w).s
      (authorize bu glu cfg (denyOutcome body) s w).w ∧
    (authorize bu glu cfg (denyOutcome body) s w).w.dialogPresent = true ∧
    countKind (authorize bu glu cfg (denyOutcome body) s w).w.activeListeners
      ButtonKind.purchase = 1 ∧
    countKind (authorize bu glu cfg (denyOutcome body) s w).w.activeListeners
      ButtonKind.alreadyPurchased = 1 ∧
    (authorize bu glu cfg (denyOutcome body) s w).result = AuthResult.ok (.bool false) := by
  have hinv1 : ListenerInv { s with purchaseConfig := body } w := by
    simpa [ListenerInv, fieldListeners] using hinv
  obtain ⟨hpb, hab, hflag, hpc, hact, hnid, hdp, herr⟩ :=
    emptyContainer_inv { s with purchaseConfig := body } w hinv1 hd
  have hpc' : (emptyContainer { s with purchaseConfig := body } w).s.purchaseConfig = body := by
    simpa using hpc
  have hr := render_good (emptyContainer { s with purchaseConfig := body } w).s
    (emptyContainer { s with purchaseConfig := body } w).w t hv hdp
    (by rw [hpc']; exact hprice) (by rw [hpc']; exact hident)
  refine ⟨⟨?_, ?_⟩, ?_, ?_, ?_, ?_⟩ <;>
    simp [authorize, denyOutcome, herr, hr, ListenerInv, fieldListeners, countKind, hact,
      hdp, hnid, hpb, hab, hflag, beq_iff_eq]

theorem emptyContainer_childCount (s : AdapterState) (w : World)
    (hce : s.containerEmpty = false) (hd : w.dialogPresent = true) :
    (emptyContainer s w).w.dialogChildCount = 0 := by
  cases hp : s.purchaseButtonListener <;> cases ha : s.alreadyPurchasedListener <;>
    simp [emptyContainer, hce, hp, ha, hd, getContainer]

/-- A 402 fetch outcome whose body failed to parse: `response.json()`
rejected, the source substitutes `undefined`. -/
def malformedDenyOutcome : FetchOutcome :=
  .rejected { response := some { status := 402, jsonBody := none }, isTimeout := false }

/-- C1: on a 402 denial the code does parse-or-default the body, store
it, empty the container and resolve `\x7baccess: false\x7d` — but the
purchase overlay is never actually rendered for a body that matches the
source's own `PurchaseConfig_0_2_Def` typedef: the price chain reads
`.price` off the purchase-options ARRAY, yielding `undefined` currency,
so `renderPurchaseOverlay_` throws and the container transitions to
nothing (no children, no listeners).  The malformed-body half of the
claim does hold: a parse failure stores `undefined` and still resolves
`\x7baccess: false\x7d` without propagating an error. -/
theorem c1_denial_stores_and_resolves_but_render_throws :
    (authorize id id defaultCfg (denyOutcome conformantBody) initState initWorld).result =
      AuthResult.ok (.bool false) ∧
    (authorize id id defaultCfg (denyOutcome conformantBody) initState
        initWorld).s.purchaseConfig = conformantBody ∧
    (authorize id id defaultCfg (denyOutcome conformantBody) initState
        initWorld).s.containerEmpty = true ∧
    (authorize id id defaultCfg (denyOutcome conformantBody) initState
        initWorld).w.dialogChildCount = 0 ∧
    (authorize id id defaultCfg (denyOutcome conformantBody) initState
        initWorld).w.activeListeners = [] ∧
    priceLineText conformantBody =
      .error (.typeError "Currency code is required with currency style") ∧
    (authorize id id defaultCfg malformedDenyOutcome initState initWorld).result =
      AuthResult.ok (.bool false) ∧
    (authorize id id defaultCfg malformedDenyOutcome initState initWorld).s.purchaseConfig =
      .undefined :=
  ⟨rfl, rfl, rfl, rfl, rfl, rfl, rfl, rfl⟩

/-- A resolved authorization body whose `status` is 200 but whose
`access` flag is `false`. -/
def okBodyAccessFalse : JsValue :=
  .obj [("status", .num 200), ("access", .bool false)]

/-- C2 counterexample: for a 2xx non-204 result whose body carries
`access: false`, `authorize()` resolves `\x7baccess: false\x7d`, not the
claimed `\x7baccess: true\x7d` — the code echoes the body's `access`
field rather than resolving the constant `true`. -/
theorem c2_access_echoed_not_constant_cx :
    (authorize id id defaultCfg (.resolved okBodyAccessFalse) initState initWorld).result =
      AuthResult.ok (.bool false) ∧
    AuthResult.ok (JsValue.bool false) ≠ AuthResult.ok (JsValue.bool true) :=
  ⟨rfl, by simp⟩

theorem getProp_access_total (body : JsValue) (stv : JsValue)
    (hst : body.getProp "status" = .ok stv) :
    ∃ av, body.getProp "access" = .ok av := by
  cases body <;> first | exact ⟨_, rfl⟩ | simp [JsValue.getProp] at hst

theorem authorize_resolved_not204 (bu glu : String → String) (cfg : FewcentsConfig)
    (body : JsValue) (s : AdapterState) (w : World) (stv av : JsValue)
    (hst : body.getProp "status" = .ok stv) (hne : jsStrictEqNum stv 204 = false)
    (hsa : body.getProp "access" = .ok av) :
    authorize bu glu cfg (.resolved body) s w =
      { result := AuthResult.ok av, s := (emptyContainer s w).s,
        w := (emptyContainer s w).w,
        fx := getPurchaseConfigFx bu glu (purchaseConfigBaseUrl cfg) ++
          (emptyContainer s w).fx } := by
  simp [authorize, hst, hne, hsa]

/-- C2 (amended): for every resolved authorization body whose `status`
field is not strictly 204, `authorize()` empties the overlay container
(the empty flag is set; the dialog's children are removed when the
container was non-empty and the dialog exists) and resolves with
`\x7baccess: v\x7d` where `v` is the body's `access` field. -/
theorem c2_success_clears_and_echoes_access :
    ∀ (bu glu : String → String) (cfg : FewcentsConfig) (body : JsValue)
      (s : AdapterState) (w : World) (stv : JsValue),
      body.getProp "status" = .ok stv → jsStrictEqNum stv 204 = false →
      ∃ av, body.getProp "access" = .ok av ∧
        (authorize bu glu cfg (.resolved body) s w).result = AuthResult.ok av ∧
        (authorize bu glu cfg (.resolved body) s w).s.containerEmpty = true ∧
        (s.containerEmpty = false → w.dialogPresent = true →
          (authorize bu glu cfg (.resolved body) s w).w.dialogChildCount = 0) := by
  intro bu glu cfg body s w stv hst hne
  obtain ⟨av, hsa⟩ := getProp_access_total body stv hst
  refine ⟨av, hsa, ?_, ?_, ?_⟩
  · rw [authorize_resolved_not204 bu glu cfg body s w stv av hst hne hsa]
  · rw [authorize_resolved_not204 bu glu cfg body s w stv av hst hne hsa]
    exact emptyContainer_flag s w
  · intro hce hdp
    rw [authorize_resolved_not204 bu glu cfg body s w stv av hst hne hsa]
    exact emptyContainer_childCount s w hce hdp

/-- C2 witness: concrete 200/access-true body from the initial state. -/
theorem c2_success_clears_and_echoes_access_witness :
    ∃ av, (JsValue.obj [("status", .num 200), ("access", .bool true)]).getProp "access" =
        .ok av ∧
      (authorize id id defaultCfg
          (.resolved (.obj [("status", .num 200), ("access", .bool true)]))
          initState initWorld).result = AuthResult.ok av ∧
      (authorize id id defaultCfg
          (.resolved (.obj [("status", .num 200), ("access", .bool true)]))
          initState initWorld).s.containerEmpty = true ∧
      (initState.containerEmpty = false → initWorld.dialogPresent = true →
        (authorize id id defaultCfg
            (.resolved (.obj [("status", .num 200), ("access", .bool true)]))
            initState initWorld).w.dialogChildCount = 0) :=
  c2_success_clears_and_echoes_access id id defaultCfg _ initState initWorld (.num 200) rfl rfl

/-- C3: a resolved body whose `status` field is strictly 204 makes
`authorize()` reject with the no-matching-configuration user error,
leaving state and world untouched; every rejection that carries no
`response`, or a `response` with status other than 402, is re-raised
unchanged, likewise without touching state or world. -/
theorem c3_204_no_match_and_other_errors_reraised :
    (∀ (bu glu : String → String) (cfg : FewcentsConfig) (body : JsValue)
       (s : AdapterState) (w : World) (stv : JsValue),
       body.getProp "status" = .ok stv → jsStrictEqNum stv 204 = true →
       authorize bu glu cfg (.resolved body) s w =
         { result := .noMatch noMatchMsg, s := s, w := w,
           fx := getPurchaseConfigFx bu glu (purchaseConfigBaseUrl cfg) }) ∧
    (∀ (bu glu : String → String) (cfg : FewcentsConfig) (err : JsRejection)
       (s : AdapterState) (w : World),
       (∀ resp, err.response = some resp → resp.status ≠ 402) →
       authorize bu glu cfg (.rejected err) s w =
         { result := .reraised err, s := s, w := w,
           fx := getPurchaseConfigFx bu glu (purchaseConfigBaseUrl cfg) }) := by
  constructor
  · intro bu glu cfg body s w stv hst h204
    simp [authorize, hst, h204]
  · intro bu glu cfg err s w h
    cases hresp : err.response with
    | none => simp [authorize, hresp]
    | some resp =>
      have hne : resp.status ≠ 402 := h resp hresp
      simp [authorize, hresp, bne_iff_ne, hne]

/-- C3 witness: a concrete 204 body and a concrete 500 rejection. -/
theorem c3_204_no_match_witness :
    authorize id id defaultCfg (.resolved (.obj [("status", .num 204)])) initState initWorld =
      { result := .noMatch noMatchMsg, s := initState, w := initWorld,
        fx := getPurchaseConfigFx id id (purchaseConfigBaseUrl defaultCfg) } ∧
    authorize id id defaultCfg
        (.rejected { response := some { status := 500, jsonBody := none }, isTimeout := false })
        initState initWorld =
      { result := .reraised
            { response := some { status := 500, jsonBody := none }, isTimeout := false },
        s := initState, w := initWorld,
        fx := getPurchaseConfigFx id id (purchaseConfigBaseUrl defaultCfg) } :=
  ⟨c3_204_no_match_and_other_errors_reraised.1 id id defaultCfg _ initState initWorld
      (.num 204) rfl rfl,
   c3_204_no_match_and_other_errors_reraised.2 id id defaultCfg _ initState initWorld
      (fun resp hr => by
        have h := Option.some.inj hr
        subst h
        decide)⟩

/-- C4: rendering with an entirely `undefined` purchase config (the
state after a malformed 402 body) THROWS — `Intl.NumberFormat` raises a
`TypeError` when `style` is `'currency'` and `currency` is `undefined` —
instead of completing with a placeholder price: the dialog receives no
children and no listeners.  Only the amount-less-but-currency-bearing
degradation the claim describes actually holds (it yields the `NaN`
placeholder). -/
theorem c4_render_throws_on_missing_currency :
    (renderPurchaseOverlay { initState with purchaseConfig := .undefined } initWorld).err =
      some (.typeError "Currency code is required with currency style") ∧
    (renderPurchaseOverlay { initState with purchaseConfig := .undefined }
        initWorld).w.dialogChildCount = 0 ∧
    (renderPurchaseOverlay { initState with purchaseConfig := .undefined }
        initWorld).w.activeListeners = [] ∧
    (renderPurchaseOverlay { initState with purchaseConfig := .undefined }
        initWorld).s.containerEmpty = true ∧
    priceLineText (.obj [("identify_url", .str "https://id.example/verify"),
        ("purchase_options", .obj [("price", .obj [("currency", .str "USD")])])]) =
      .ok "USD NaN [en-EN]/article" :=
  ⟨rfl, rfl, rfl, rfl, rfl⟩

/-- C5: for a purchase config that is well formed for the source's own
typedefs (options in an ARRAY), the price chain
`purchase_options?.price` reads the `price` property off the array and
yields `undefined`, so the formatter throws instead of producing any
price text — the first option's amount/currency are never consulted,
and the hard-coded `'en-EN'` formatter locale is used in place of the
configured `currentLocale_` (default `'en'`). -/
theorem c5_price_chain_reads_array_property :
    (conformantBody.optProp "purchase_options").optProp "price" = .undefined ∧
    priceLineText conformantBody =
      .error (.typeError "Currency code is required with currency style") ∧
    (renderPurchaseOverlay { initState with purchaseConfig := conformantBody }
        initWorld).err =
      some (.typeError "Currency code is required with currency style") ∧
    currentLocale defaultCfg = "en" :=
  ⟨rfl, rfl, rfl, rfl⟩

/-- Recognizer for the child-removal effect. -/
def isRemoveFx : Effect → Bool
  | .domRemoveChildrenFx => true
  | _ => false

/-- Recognizer for the disposal of the listener registered under id `i`. -/
def isDisposeOfFx (i : Nat) : Effect → Bool
  | .disposeListenerFx j => j == i
  | _ => false

/-- C6 counterexample: after a single 402 denial carrying a body that
matches the source's own typedefs, the listener count per button is 0,
not the claimed 1 — the overlay render throws before any listener is
attached. -/
theorem c6_conformant_denial_attaches_no_listener_cx :
    countKind (authIter id id defaultCfg (denyOutcome conformantBody) 1
        (initState, initWorld)).2.activeListeners ButtonKind.purchase = 0 ∧
    countKind (authIter id id defaultCfg (denyOutcome conformantBody) 1
        (initState, initWorld)).2.activeListeners ButtonKind.alreadyPurchased = 0 ∧
    (0 : Nat) ≠ 1 :=
  ⟨rfl, rfl, by decide⟩

/-- C6 (amended): `emptyContainer_` is a no-op on an already-empty
container; two consecutive calls remove children at most once; each
stored listener-disposer — the purchase-button one and the
already-purchased one — is invoked exactly once and its slot nulled;
and after `n + 1` consecutive 402 denials whose body lets the overlay
render complete (its price chain carries a defined well-formed currency
and `identify_url` is readable — NOT the case for typedef-conformant
bodies, where the count is 0), the active-listener count per button is
exactly 1, the previous render's listeners having been disposed before
the new ones were attached. -/
theorem c6_listener_and_container_discipline :
    (∀ (s : AdapterState) (w : World), s.containerEmpty = true →
      emptyContainer s w = { s := s, w := w, fx := [], err := none }) ∧
    (∀ (s : AdapterState) (w : World),
      ((emptyContainer s w).fx ++
        (emptyContainer (emptyContainer s w).s (emptyContainer s w).w).fx).countP
          isRemoveFx ≤ 1) ∧
    (∀ (s : AdapterState) (w : World) (i : Nat), s.containerEmpty = false →
      s.purchaseButtonListener = some i →
      (∀ j, s.alreadyPurchasedListener = some j → j ≠ i) →
      (emptyContainer s w).fx.countP (isDisposeOfFx i) = 1 ∧
      (emptyContainer s w).s.purchaseButtonListener = none) ∧
    (∀ (s : AdapterState) (w : World) (j : Nat), s.containerEmpty = false →
      s.alreadyPurchasedListener = some j →
      (∀ i, s.purchaseButtonListener = some i → i ≠ j) →
      (emptyContainer s w).fx.countP (isDisposeOfFx j) = 1 ∧
      (emptyContainer s w).s.alreadyPurchasedListener = none) ∧
    (∀ (bu glu : String → String) (cfg : FewcentsConfig) (body : JsValue) (t : String)
       (hv : JsValue) (n : Nat) (s : AdapterState) (w : World),
      ListenerInv s w → w.dialogPresent = true →
      priceLineText body = .ok t → body.getProp "identify_url" = .ok hv →
      countKind (authIter bu glu cfg (denyOutcome body) (n + 1) (s, w)).2.activeListeners
          ButtonKind.purchase = 1 ∧
      countKind (authIter bu glu cfg (denyOutcome body) (n + 1) (s, w)).2.activeListeners
          ButtonKind.alreadyPurchased = 1) := by
  refine ⟨fun s w h => emptyContainer_noop s w h, ?_, ?_, ?_, ?_⟩
  · intro s w
    rw [List.countP_append, emptyContainer_noop _ _ (emptyContainer_flag s w)]
    simp only [List.countP_nil, Nat.add_zero]
    by_cases h : s.containerEmpty
    · simp [emptyContainer_noop s w h]
    · simp only [Bool.not_eq_true] at h
      cases hp : s.purchaseButtonListener <;> cases ha : s.alreadyPurchasedListener <;>
        cases hd : w.dialogPresent <;>
          simp [emptyContainer, h, hp, ha, hd, getContainer, isRemoveFx, List.countP_cons]
  · intro s w i hce hp hne
    cases ha : s.alreadyPurchasedListener with
    | none =>
      cases hd : w.dialogPresent <;>
        simp [emptyContainer, hce, hp, ha, hd, getContainer, isDisposeOfFx, List.countP_cons]
    | some j =>
      have hji : j ≠ i := hne j ha
      cases hd : w.dialogPresent <;>
        simp [emptyContainer, hce, hp, ha, hd, getContainer, isDisposeOfFx,
          List.countP_cons, hji]
  · intro s w j hce ha hne
    cases hp : s.purchaseButtonListener with
    | none =>
      cases hd : w.dialogPresent <;>
        simp [emptyContainer, hce, hp, ha, hd, getContainer, isDisposeOfFx, List.countP_cons]
    | some i =>
      have hij : i ≠ j := hne i hp
      cases hd : w.dialogPresent <;>
        simp [emptyContainer, hce, hp, ha, hd, getContainer, isDisposeOfFx,
          List.countP_cons, hij]
  · intro bu glu cfg body t hv n
    induction n with
    | zero =>
      intro s w hinv hd hpr hid
      obtain ⟨_, _, h1, h2, _⟩ := auth402_step bu glu cfg body s w t hv hinv hd hpr hid
      exact ⟨h1, h2⟩
    | succ n ih =>
      intro s w hinv hd hpr hid
      obtain ⟨hinv2, hd2, _, _, _⟩ := auth402_step bu glu cfg body s w t hv hinv hd hpr hid
      exact ih (authorize bu glu cfg (denyOutcome body) s w).s
        (authorize bu glu cfg (denyOutcome body) s w).w hinv2 hd2 hpr hid

/-- A state holding the overlay with two registered listeners, for the
C6 witness. -/
def listenerState : AdapterState :=
  { initState with
    containerEmpty := false
    purchaseButtonListener := some 5
    alreadyPurchasedListener := some 7 }

/-- C6 witness: the four conjuncts at concrete inputs. -/
theorem c6_listener_and_container_discipline_witness :
    emptyContainer initState initWorld =
      { s := initState, w := initWorld, fx := [], err := none } ∧
    ((emptyContainer listenerState initWorld).fx ++
      (emptyContainer (emptyContainer listenerState initWorld).s
        (emptyContainer listenerState initWorld).w).fx).countP isRemoveFx ≤ 1 ∧
    ((emptyContainer listenerState initWorld).fx.countP (isDisposeOfFx 5) = 1 ∧
      (emptyContainer listenerState initWorld).s.purchaseButtonListener = none) ∧
    ((emptyContainer listenerState initWorld).fx.countP (isDisposeOfFx 7) = 1 ∧
      (emptyContainer listenerState initWorld).s.alreadyPurchasedListener = none) ∧
    (countKind (authIter id id defaultCfg (denyOutcome renderableBody) 1
        (initState, initWorld)).2.activeListeners ButtonKind.purchase = 1 ∧
      countKind (authIter id id defaultCfg (denyOutcome renderableBody) 1
        (initState, initWorld)).2.activeListeners ButtonKind.alreadyPurchased = 1) :=
  ⟨c6_listener_and_container_discipline.1 initState initWorld rfl,
   c6_listener_and_container_discipline.2.1 listenerState initWorld,
   c6_listener_and_container_discipline.2.2.1 listenerState initWorld 5 rfl rfl
     (fun j hj => by
       have h := Option.some.inj hj
       subst h
       decide),
   c6_listener_and_container_discipline.2.2.2.1 listenerState initWorld 7 rfl rfl
     (fun i hi => by
       have h := Option.some.inj hi
       subst h
       decide),
   c6_listener_and_container_discipline.2.2.2.2 id id defaultCfg renderableBody
     "USD 1 [en-EN]/article" (.str "https://id.example/verify") 0 initState initWorld
     (by constructor <;> simp [initState, initWorld, fieldListeners]) rfl rfl rfl⟩

theorem emptyContainer_fx_no_fetch (s : AdapterState) (w : World) :
    (emptyContainer s w).fx.filter isFetchFx = [] := by
  by_cases h : s.containerEmpty
  · simp [emptyContainer_noop s w h]
  · simp only [Bool.not_eq_true] at h
    cases hp : s.purchaseButtonListener <;> cases ha : s.alreadyPurchasedListener <;>
      cases hd : w.dialogPresent <;>
        simp [emptyContainer, h, hp, ha, hd, getContainer, isFetchFx]

theorem render_fx_no_fetch (s : AdapterState) (w : World) :
    (renderPurchaseOverlay s w).fx.filter isFetchFx = [] := by
  cases hd : w.dialogPresent
  · simp [renderPurchaseOverlay, getContainer, hd]
  · cases hp : priceLineText s.purchaseConfig with
    | error e => simp [renderPurchaseOverlay, getContainer, hd, hp]
    | ok t =>
      cases hi : s.purchaseConfig.getProp "identify_url" with
      | error e => simp [renderPurchaseOverlay, getContainer, hd, hp, hi, isFetchFx]
      | ok v => simp [renderPurchaseOverlay, getContainer, hd, hp, hi, isFetchFx]

/-- C7: every `authorize()` call performs exactly one fetch — a GET with
credentials included, bounded by the fixed `AUTHORIZATION_TIMEOUT` of
3000 ms, aimed at the built-then-login-resolved URL — whatever the
outcome (no retries); and on the timeout rejection `authorize()`
re-raises the timeout error with the adapter state and the document
completely untouched — no DOM-mutating effect is performed.  The timer
and XHR services themselves live outside this extension's sources and
are modelled from the spec (see `getPurchaseConfigFx`). -/
theorem c7_single_bounded_fetch_and_timeout :
    ∀ (bu glu : String → String) (cfg : FewcentsConfig) (outcome : FetchOutcome)
      (s : AdapterState) (w : World),
      (authorize bu glu cfg outcome s w).fx.filter isFetchFx =
        [Effect.fetchFx (glu (bu (purchaseConfigBaseUrl cfg))) "GET" "include"
          AUTHORIZATION_TIMEOUT] ∧
      authorize bu glu cfg timeoutOutcome s w =
        { result := .reraised { response := none, isTimeout := true }, s := s, w := w,
          fx := getPurchaseConfigFx bu glu (purchaseConfigBaseUrl cfg) } ∧
      (authorize bu glu cfg timeoutOutcome s w).fx.filter isDomFx = [] := by
  intro bu glu cfg outcome s w
  refine ⟨?_, rfl, by simp [authorize, timeoutOutcome, getPurchaseConfigFx, isDomFx]⟩
  have hbase : (getPurchaseConfigFx bu glu (purchaseConfigBaseUrl cfg)).filter isFetchFx =
      [Effect.fetchFx (glu (bu (purchaseConfigBaseUrl cfg))) "GET" "include"
        AUTHORIZATION_TIMEOUT] := by
    simp [getPurchaseConfigFx, isFetchFx]
  cases outcome with
  | resolved body =>
    cases hst : body.getProp "status" with
    | error e => simp [authorize, hst, hbase]
    | ok stv =>
      by_cases h204 : jsStrictEqNum stv 204 = true
      · simp [authorize, hst, h204, hbase]
      · simp only [Bool.not_eq_true] at h204
        cases hsa : body.getProp "access" with
        | error e =>
          simp [authorize, hst, h204, hsa, hbase, List.filter_append,
            emptyContainer_fx_no_fetch]
        | ok av =>
          simp [authorize, hst, h204, hsa, hbase, List.filter_append,
            emptyContainer_fx_no_fetch]
  | rejected err =>
    cases hresp : err.response with
    | none => simp [authorize, hresp, hbase]
    | some resp =>
      by_cases h402 : resp.status = 402
      · cases hee : (emptyContainer { s with
            purchaseConfig := resp.jsonBody.getD .undefined } w).err with
        | some e =>
          simp [authorize, hresp, h402, hee, hbase, List.filter_append,
            emptyContainer_fx_no_fetch]
        | none =>
          simp [authorize, hresp, h402, hee, hbase, List.filter_append,
            emptyContainer_fx_no_fetch, render_fx_no_fetch]
      · simp [authorize, hresp, bne_iff_ne, h402, hbase]

/-- C8: the click handler itself does suppress the default action,
decorate via `buildUrl` only (no `getLoginUrl`) and call `loginWithUrl`
exactly once with the decorated URL — but the purchase-button wiring
reads `purchase_options.purchase_url` off the options ARRAY, so for a
typedef-conformant stored config the URL handed to the decorator is
`undefined`, not the option's `purchase_url`; the already-purchased
link passes `identify_url` plus an `'alreadyPurchased'` marker that
`handlePurchase_`'s parameter list silently drops. -/
theorem c8_purchase_click_decorates_undefined :
    clickPurchaseButton jsToStringLite { initState with purchaseConfig := conformantBody } =
      .ok [Effect.preventDefaultFx, Effect.buildUrlFx .undefined false,
        Effect.loginWithUrlFx "undefined"] ∧
    (match conformantBody.optProp "purchase_options" with
     | .arr (o :: _) => o.optProp "purchase_url"
     | _ => JsValue.undefined) = .str "https://pay.example/1" ∧
    clickAlreadyPurchased jsToStringLite (.str "https://id.example/verify") =
      [Effect.preventDefaultFx, Effect.buildUrlFx (.str "https://id.example/verify") false,
        Effect.loginWithUrlFx "https://id.example/verify"] :=
  ⟨rfl, rfl, rfl⟩

/-- C9 counterexample: with `configUrl` configured, the purchase-config
base URL is still built from the constant default
`http://localhost:9000` — `getConfigUrl_` never reads the override. -/
theorem c9_configurl_override_ignored_cx :
    purchaseConfigBaseUrl
        { configUrl := some "https://api.fewcents.co", articleId := none, locale := none } =
      "http://localhost:9000/api/v1/amp/?article_url=CANONICAL_URL&amp_reader_id=READER_ID&return_url=RETURN_URL" ∧
    purchaseConfigBaseUrl
        { configUrl := some "https://api.fewcents.co", articleId := none, locale := none } ≠
      "https://api.fewcents.co" ++ CONFIG_BASE_PATH :=
  ⟨rfl, by decide⟩

/-- C9 (amended): the authorization URL is built from the constant
default base `http://localhost:9000` regardless of
`AdapterConfig.configUrl` (any two configurations sharing an
`articleId` yield the same URL), plus the fixed path template, with
`&article_id=<URI-encoded id>` appended exactly when `articleId` is
configured truthy (present and non-empty). -/
theorem c9_base_url_ignores_configurl :
    (∀ c₁ c₂ : FewcentsConfig, c₁.articleId = c₂.articleId →
      purchaseConfigBaseUrl c₁ = purchaseConfigBaseUrl c₂) ∧
    (∀ cfg : FewcentsConfig,
      (truthyStr cfg.articleId = true →
        purchaseConfigBaseUrl cfg =
          CONFIG_URL ++ CONFIG_BASE_PATH ++ "&article_id=" ++
            encodeURIComponent (cfg.articleId.getD "")) ∧
      (truthyStr cfg.articleId = false →
        purchaseConfigBaseUrl cfg = CONFIG_URL ++ CONFIG_BASE_PATH)) := by
  constructor
  · intro c₁ c₂ h
    simp [purchaseConfigBaseUrl, h]
  · intro cfg
    constructor <;> intro h <;> simp [purchaseConfigBaseUrl, getConfigUrl, h]

/-- C9 witness: a configured override yields the same URL as no
override; a truthy article id is appended URI-encoded. -/
theorem c9_base_url_ignores_configurl_witness :
    purchaseConfigBaseUrl
        { configUrl := some "https://api.fewcents.co", articleId := none, locale := none } =
      purchaseConfigBaseUrl { configUrl := none, articleId := none, locale := none } ∧
    purchaseConfigBaseUrl { configUrl := none, articleId := some "a 1", locale := none } =
      CONFIG_URL ++ CONFIG_BASE_PATH ++ "&article_id=" ++ encodeURIComponent "a 1" :=
  ⟨c9_base_url_ignores_configurl.1 _ _ rfl,
   (c9_base_url_ignores_configurl.2 _).1 rfl⟩

/-- C10: both overlay-touching operations require the element with id
`amp-access-fewcents-dialog`: when it is absent, rendering throws the
user assertion error before mutating anything, and the DOM-clearing
branch of a non-empty `emptyContainer_` rejects with the same assertion
error, removing no children. -/
theorem c10_dialog_element_required :
    (∀ (s : AdapterState) (w : World), w.dialogPresent = false →
      (renderPurchaseOverlay s w).err =
        some (.userError ("No element found with id " ++ TAG ++ "-dialog")) ∧
      (renderPurchaseOverlay s w).s = s ∧
      (renderPurchaseOverlay s w).w = w ∧
      (renderPurchaseOverlay s w).fx = []) ∧
    (∀ (s : AdapterState) (w : World), w.dialogPresent = false →
      s.containerEmpty = false →
      (emptyContainer s w).err =
        some (.userError ("No element found with id " ++ TAG ++ "-dialog")) ∧
      (emptyContainer s w).w.dialogChildCount = w.dialogChildCount ∧
      (emptyContainer s w).fx.countP isRemoveFx = 0) := by
  constructor
  · intro s w hd
    simp [renderPurchaseOverlay, getContainer, hd]
  · intro s w hd hce
    cases hp : s.purchaseButtonListener <;> cases ha : s.alreadyPurchasedListener <;>
      simp [emptyContainer, hce, hp, ha, hd, getContainer, isRemoveFx, List.countP_cons]

/-- C10 witness: concrete states against a document lacking the dialog
element. -/
theorem c10_dialog_element_required_witness :
    ((renderPurchaseOverlay initState noDialogWorld).err =
        some (.userError ("No element found with id " ++ TAG ++ "-dialog")) ∧
      (renderPurchaseOverlay initState noDialogWorld).s = initState ∧
      (renderPurchaseOverlay initState noDialogWorld).w = noDialogWorld ∧
      (renderPurchaseOverlay initState noDialogWorld).fx = []) ∧
    ((emptyContainer listenerState noDialogWorld).err =
        some (.userError ("No element found with id " ++ TAG ++ "-dialog")) ∧
      (emptyContainer listenerState noDialogWorld).w.dialogChildCount =
        noDialogWorld.dialogChildCount ∧
      (emptyContainer listenerState noDialogWorld).fx.countP isRemoveFx = 0) :=
  ⟨c10_dialog_element_required.1 initState noDialogWorld rfl,
   c10_dialog_element_required.2 listenerState noDialogWorld rfl rfl⟩

end Fewcents
